import Mathlib

/-!
Verification of the upstream-identity-federation core of rauthy
(src/rauthy-models/src/entity/auth_provider.rs), as a shallow embedding.

External collaborators that are not part of the sources (the relational
store, the distributed cache, the reqwest HTTP client, the cryptr
encryption crate, the ring SHA-256 digest, base64 and serde decoding, and
the User / Client / UserValues entities) are modelled as explicit oracle
parameters: every call the Rust code makes to one of them becomes either a
function argument or an entry in an operation trace, so the control flow
of the embedded functions mirrors the Rust control flow line by line.
-/

namespace Rauthy

/-- rauthy_common::error_response::ErrorResponseType, restricted to the
variants used by auth_provider.rs. -/
inductive ErrorResponseType
  | BadRequest
  | Connection
  | Forbidden
  | Internal
  | NotFound
  | Unauthorized
deriving DecidableEq, Repr

/-- rauthy_common::error_response::ErrorResponse: an error kind plus a message. -/
structure ErrorResponse where
  typ : ErrorResponseType
  message : String
deriving DecidableEq, Repr

instance {ε α : Type} [DecidableEq ε] [DecidableEq α] : DecidableEq (Except ε α) := fun a b =>
  match a, b with
  | .ok x, .ok y =>
    if h : x = y then isTrue (by rw [h]) else isFalse (fun hh => h (Except.ok.inj hh))
  | .error x, .error y =>
    if h : x = y then isTrue (by rw [h]) else isFalse (fun hh => h (Except.error.inj hh))
  | .ok _, .error _ => isFalse (fun hh => Except.noConfusion hh)
  | .error _, .ok _ => isFalse (fun hh => Except.noConfusion hh)

/-- AuthProviderType (auth_provider.rs lines 40-45): currently the single
OIDC variant. -/
inductive AuthProviderType
  | OIDC
deriving DecidableEq, Repr

/-- AuthProviderType::as_str. -/
def AuthProviderType.as_str : AuthProviderType → String
  | .OIDC => "oidc"

/-- TryFrom<&str> for AuthProviderType (lines 55-70): only "oidc" is
accepted, anything else is a BadRequest error. -/
def AuthProviderType.try_from (value : String) : Except ErrorResponse AuthProviderType :=
  if value = "oidc" then .ok .OIDC
  else .error ⟨.BadRequest, "Invalid AuthProviderType"⟩

/-- From<String> for AuthProviderType (lines 72-77):
Self::try_from(value.as_str()).unwrap_or(Self::OIDC). -/
def AuthProviderType.from_string (value : String) : AuthProviderType :=
  match AuthProviderType.try_from value with
  | .ok t => t
  | .error _ => .OIDC

/-! ## String utilities

Rust str::split(sep) and str::trim are embedded on List Char so that all
definitions reduce in the kernel. split_on_char matches the Rust
semantics: splitting the empty string yields one empty piece, and n
separators yield n+1 pieces. is_ws models Rust char::is_whitespace on the
ASCII whitespace characters (the only ones exercised here). -/

/-- Rust str::split(sep) on a character list. -/
def split_on_char (sep : Char) : List Char → List (List Char)
  | [] => [[]]
  | c :: cs =>
    if c = sep then [] :: split_on_char sep cs
    else
      match split_on_char sep cs with
      | [] => [[c]]
      | t :: ts => (c :: t) :: ts

/-- Whitespace test used by the embedding of Rust str::trim: the Unicode
White_Space property, exactly the set recognized by Rust
char::is_whitespace (tab, line feed, line tabulation, form feed,
carriage return, space, next line, no-break space, ogham space mark, the
en-quad..hair-space range, line separator, paragraph separator, narrow
no-break space, medium mathematical space, ideographic space). -/
def is_ws (c : Char) : Bool :=
  c.toNat = 0x09 || c.toNat = 0x0A || c.toNat = 0x0B || c.toNat = 0x0C
    || c.toNat = 0x0D || c.toNat = 0x20 || c.toNat = 0x85 || c.toNat = 0xA0
    || c.toNat = 0x1680 || (0x2000 ≤ c.toNat && c.toNat ≤ 0x200A)
    || c.toNat = 0x2028 || c.toNat = 0x2029 || c.toNat = 0x202F
    || c.toNat = 0x205F || c.toNat = 0x3000

/-- Rust str::trim on a character list: drop whitespace from both ends. -/
def trim_chars (l : List Char) : List Char :=
  ((l.dropWhile is_ws).reverse.dropWhile is_ws).reverse

/-- The first character, if any, is not whitespace. -/
def head_not_ws (l : List Char) : Prop :=
  ∀ c, l.head? = some c → is_ws c = false

/-- Neither end of the list carries whitespace. -/
def trimmed_ends (l : List Char) : Prop :=
  head_not_ws l ∧ head_not_ws l.reverse

/-- Rust Vec::join("+") on a list of character lists (a single plus sign
between consecutive elements). -/
def join_plus : List (List Char) → List Char
  | [] => []
  | [t] => t
  | t :: ts => t ++ '+' :: join_plus ts

/-- AuthProvider::cleanup_scope (lines 302-309) on a character list:
split on the space character, keep the nonempty pieces, trim each kept
piece, join with a plus sign. -/
def cleanup_scope_chars (l : List Char) : List Char :=
  join_plus ((split_on_char ' ' l).filterMap
    (fun s => if s ≠ [] then some (trim_chars s) else none))

/-- AuthProvider::cleanup_scope on String. -/
def cleanup_scope (scope : String) : String :=
  String.mk (cleanup_scope_chars scope.data)

/-! ## Discovery resolver (AuthProvider::lookup_config, lines 381-463)

The discovery document shape is the WellKnown entity (well_known.rs is not
part of the sources; the fields are exactly the ones lookup_config reads).
The HTTP fetch and JSON parse are external IO and enter as a FetchResult
oracle; everything after the parse is embedded verbatim. -/

/-- The fields of the remote openid-configuration document read by
lookup_config. -/
structure WellKnown where
  issuer : String
  authorization_endpoint : String
  token_endpoint : String
  userinfo_endpoint : String
  scopes_supported : List String
  token_endpoint_auth_methods_supported : List String
  code_challenge_methods_supported : List String
deriving DecidableEq, Repr

/-- response::ProviderLookupResponse, with the fields built by
lookup_config (lines 443-462). -/
structure ProviderLookupResponse where
  issuer : String
  authorization_endpoint : String
  token_endpoint : String
  userinfo_endpoint : String
  token_auth_method_basic : Bool
  use_pkce : Bool
  danger_allow_insecure : Bool
  scope : String
deriving DecidableEq, Repr

/-- Outcome of the outbound discovery fetch: a reqwest send error, a
non-2xx response with its body, a JSON parse failure, or a parsed
document. -/
inductive FetchResult
  | send_error (e : ErrorResponse)
  | http_error (status : Nat) (body : String)
  | invalid_document (err : String)
  | ok (wk : WellKnown)
deriving Repr

/-- AuthProvider::lookup_config, after client construction and URL
normalization (the fetch itself is the oracle). The http_error message
mirrors the source format string, which interpolates config_url first and
the status second. -/
def lookup_config (fetch : FetchResult) (config_url : String)
    (danger_allow_insecure : Bool) : Except ErrorResponse ProviderLookupResponse :=
  match fetch with
  | .send_error e => .error e
  | .http_error status body =>
    .error ⟨.Connection,
      "HTTP " ++ config_url ++ " when trying provider config lookup to "
        ++ toString status ++ ": " ++ body⟩
  | .invalid_document err =>
    .error ⟨.BadRequest,
      "The provider does not support the mandatory openid-configuration: " ++ err⟩
  | .ok wk =>
    let scope :=
      (if wk.scopes_supported.contains "openid" then "openid " else "")
        ++ (if wk.scopes_supported.contains "profile" then "profile " else "")
        ++ (if wk.scopes_supported.contains "email" then "email " else "")
    .ok
      { issuer := wk.issuer
        authorization_endpoint := wk.authorization_endpoint
        token_endpoint := wk.token_endpoint
        userinfo_endpoint := wk.userinfo_endpoint
        token_auth_method_basic :=
          !(wk.token_endpoint_auth_methods_supported.contains "client_secret_post")
        use_pkce := wk.code_challenge_methods_supported.contains "S256"
        danger_allow_insecure := danger_allow_insecure
        scope := scope }

/-- The scope tokens of a scope string: split on spaces, nonempty pieces. -/
def scope_tokens (s : String) : List String :=
  ((split_on_char ' ' s.data).filter (fun t => t ≠ [])).map String.mk

/-! ## Identity reconciler (AuthProviderIdClaims::validate_update_user,
lines 868-1037)

The User, UserValues and Language entities live in files that are not part
of the sources; their shapes below are modelled from the spec (section 3,
Reconciled User and Profile Values) and from the exact field accesses made
by auth_provider.rs. Every store call (User::find_by_email,
User::find_by_federation_uid, User::save, User::create_federated,
UserValues::find, UserValues::upsert) is an oracle whose invocation is
recorded in an operation trace, so the theorems can speak about which
records were read or written. -/

/-- Modelled from the spec: the display language of a user; locale is
mapped to a supported display language, defaulting to the system default
(language.rs is not part of the sources). -/
def Language := String
deriving DecidableEq, Repr

/-- Modelled from the spec: Language::from(locale). -/
def language_from_locale (locale : String) : Language := locale

/-- Modelled from the spec: Language::default(). -/
def language_default : Language := "en"

/-- Modelled from the spec: the local user record (Reconciled User), with
exactly the fields touched by validate_update_user (users.rs is not part
of the sources). -/
structure User where
  id : String
  email : String
  given_name : String
  family_name : String
  enabled : Bool
  email_verified : Bool
  last_login : Option Int
  last_failed_login : Option Int
  failed_login_attempts : Option Int
  language : Language
  auth_provider_id : Option String
  federation_uid : Option String
deriving DecidableEq, Repr

/-- Modelled from the spec: User::default(), used for the fields of a new
federated user that the reconciler does not set explicitly. -/
def User.default_user : User :=
  { id := "", email := "", given_name := "", family_name := ""
    enabled := false, email_verified := false
    last_login := none, last_failed_login := none, failed_login_attempts := none
    language := language_default, auth_provider_id := none, federation_uid := none }

/-- Modelled from the spec: the stored profile values record
(users_values.rs is not part of the sources; the fields are the ones read
at lines 994-1001). -/
structure UserValues where
  birthdate : Option String
  phone : Option String
  street : Option String
  zip : Option Int
  city : Option String
  country : Option String
deriving DecidableEq, Repr

/-- request::UserValuesRequest as built at lines 993-1010. -/
structure UserValuesRequest where
  birthdate : Option String
  phone : Option String
  street : Option String
  zip : Option Int
  city : Option String
  country : Option String
deriving DecidableEq, Repr

/-- AuthProviderAddressClaims (lines 840-847). -/
structure AuthProviderAddressClaims where
  formatted : Option String
  street_address : Option String
  locality : Option String
  postal_code : Option Int
  country : Option String
deriving DecidableEq, Repr

/-- AuthProviderIdClaims (lines 849-866): the decoded ID-token claims;
email stays optional at the decoding stage on purpose. -/
structure AuthProviderIdClaims where
  iss : String
  sub : String
  aud : Option String
  azp : Option String
  amr : Option (List String)
  email : Option String
  email_verified : Option Bool
  given_name : Option String
  family_name : Option String
  address : Option AuthProviderAddressClaims
  birthdate : Option String
  locale : Option String
  phone : Option String
deriving DecidableEq, Repr

/-- One call made by the reconciler against the external user and
profile-values stores. -/
inductive UserStoreOp
  | find_by_email (email : String)
  | find_by_federation_uid (sub : String)
  | save (user : User) (old_email : Option String)
  | create_federated (user : User)
  | values_find (user_id : String)
  | values_upsert (user_id : String) (values : UserValuesRequest)
deriving DecidableEq, Repr

/-- The external user and profile-values stores (spec section 6) as
response oracles. -/
structure UserStores where
  find_by_email : String → Except ErrorResponse User
  find_by_federation_uid : String → Except ErrorResponse (Option User)
  save : User → Option String → Except ErrorResponse Unit
  create_federated : User → Except ErrorResponse User
  values_find : String → Except ErrorResponse (Option UserValues)
  values_upsert : String → UserValuesRequest → Except ErrorResponse Unit

/-- The forbidden-mismatch check of lines 918-928: the first condition
sets the message, the second overwrites it. -/
def forbidden_error (user : User) (sub auth_provider_id : String) : Option String :=
  let fed :=
    if user.federation_uid = none ∨ user.federation_uid ≠ some sub
    then some "non-federated user or ID mismatch" else none
  if user.auth_provider_id ≠ some auth_provider_id
  then some "invalid login from wrong auth provider" else fed

/-- The failed-login bump of lines 931-933. -/
def bump_failed (user : User) (now : Int) : User :=
  { user with
    last_failed_login := some now
    failed_login_attempts := some (user.failed_login_attempts.getD 0 + 1) }

/-- The profile-values step of lines 991-1033: read the stored values,
overwrite exactly the fields present in the claims, and upsert only when
at least one optional claim was present. -/
def update_user_values (st : UserStores) (slf : AuthProviderIdClaims) (user : User)
    (ops : List UserStoreOp) : Except ErrorResponse User × List UserStoreOp :=
  match st.values_find user.id with
  | .error e => (.error e, ops ++ [.values_find user.id])
  | .ok vopt =>
    let base : UserValuesRequest :=
      match vopt with
      | some v => ⟨v.birthdate, v.phone, v.street, v.zip, v.city, v.country⟩
      | none => ⟨none, none, none, none, none, none⟩
    let (uv1, f1) :=
      match slf.birthdate with
      | some bday => ({ base with birthdate := some bday }, true)
      | none => (base, false)
    let (uv2, f2) :=
      match slf.phone with
      | some phone => ({ uv1 with phone := some phone }, true)
      | none => (uv1, f1)
    let (uv3, f3) :=
      match slf.address with
      | some addr =>
        let a1 := match addr.street_address with
          | some street => { uv2 with street := some street }
          | none => uv2
        let a2 := match addr.country with
          | some country => { a1 with country := some country }
          | none => a1
        let a3 := match addr.postal_code with
          | some zip => { a2 with zip := some zip }
          | none => a2
        (a3, true)
      | none => (uv2, f2)
    if f3 then
      match st.values_upsert user.id uv3 with
      | .error e => (.error e, ops ++ [.values_find user.id, .values_upsert user.id uv3])
      | .ok _ => (.ok user, ops ++ [.values_find user.id, .values_upsert user.id uv3])
    else
      (.ok user, ops ++ [.values_find user.id])

/-- The merge-or-create step of lines 913-989, applied to the result of
the two-way lookup. -/
def reconcile_user (st : UserStores) (slf : AuthProviderIdClaims) (email : String)
    (auth_provider_id : String) (now : Int) (user_opt : Option User)
    (ops : List UserStoreOp) : Except ErrorResponse User × List UserStoreOp :=
  match user_opt with
  | some user =>
    match forbidden_error user slf.sub auth_provider_id with
    | some err =>
      let u := bump_failed user now
      match st.save u none with
      | .error e => (.error e, ops ++ [.save u none])
      | .ok _ => (.error ⟨.Forbidden, err⟩, ops ++ [.save u none])
    | none =>
      let (old_email, user1) :=
        if user.email ≠ email then (some user.email, { user with email := email })
        else (none, user)
      let user2 :=
        match slf.given_name with
        | some g => if user1.given_name ≠ g then { user1 with given_name := g } else user1
        | none => user1
      let user3 :=
        match slf.family_name with
        | some f => if user2.family_name ≠ f then { user2 with family_name := f } else user2
        | none => user2
      let user4 :=
        { user3 with last_login := some now, last_failed_login := none
                     failed_login_attempts := none }
      match st.save user4 old_email with
      | .error e => (.error e, ops ++ [.save user4 old_email])
      | .ok _ => update_user_values st slf user4 (ops ++ [.save user4 old_email])
  | none =>
    let new_user : User :=
      { User.default_user with
        email := email
        given_name := slf.given_name.getD "N/A"
        family_name := slf.family_name.getD "N/A"
        enabled := true
        email_verified := slf.email_verified.getD false
        last_login := some now
        language := (slf.locale.map language_from_locale).getD language_default
        auth_provider_id := some auth_provider_id
        federation_uid := some slf.sub }
    match st.create_federated new_user with
    | .error e => (.error e, ops ++ [.create_federated new_user])
    | .ok user => update_user_values st slf user (ops ++ [.create_federated new_user])

/-- AuthProviderIdClaims::validate_update_user (lines 869-1036).
decode_claims is the oracle for base64_decode plus serde_json parsing of
the payload segment; now is the oracle for the current unix timestamp.
The token is split on dots; the first segment is the (ignored) header and
the second the claims. -/
def validate_update_user (decode_claims : List Char → Except ErrorResponse AuthProviderIdClaims)
    (st : UserStores) (token : String) (auth_provider_id : String) (now : Int) :
    Except ErrorResponse User × List UserStoreOp :=
  match split_on_char '.' token.data with
  | [] => (.error ⟨.BadRequest, "incorrect ID did not contain claims"⟩, [])
  | [_header] => (.error ⟨.BadRequest, "ID token was unsigned"⟩, [])
  | _header :: claims_part :: _ =>
    match decode_claims claims_part with
    | .error e => (.error e, [])
    | .ok slf =>
      match slf.email with
      | none =>
        (.error ⟨.BadRequest, "No `email` in ID token claims. This is a mandatory claim"⟩, [])
      | some email =>
        match st.find_by_email email with
        | .ok user =>
          reconcile_user st slf email auth_provider_id now (some user)
            [.find_by_email email]
        | .error _ =>
          match st.find_by_federation_uid slf.sub with
          | .error e => (.error e, [.find_by_email email, .find_by_federation_uid slf.sub])
          | .ok user_opt =>
            reconcile_user st slf email auth_provider_id now user_opt
              [.find_by_email email, .find_by_federation_uid slf.sub]

/-! ## Upstream login session state machine
(AuthProviderCallback, lines 486-774)

The session record and the two operations login_start and login_finish.
The cache, the cookie encryption (cryptr EncValue plus base64), the PKCE
hash (ring SHA-256 plus base64url) and the upstream token exchange
(reqwest) are oracles. Deletions of the session record and consultations
of the upstream token endpoint are recorded in an operation trace. -/

/-- AuthProvider (lines 81-101): durable upstream provider configuration.
The encrypted secret and the logo are byte blobs. -/
structure AuthProvider where
  id : String
  name : String
  typ : AuthProviderType
  issuer : String
  authorization_endpoint : String
  token_endpoint : String
  userinfo_endpoint : String
  client_id : String
  secret : Option (List Nat)
  scope : String
  allow_insecure_requests : Bool
  use_pkce : Bool
  root_pem : Option String
  logo : Option (List Nat)
  logo_type : Option String
deriving DecidableEq, Repr

/-- Modelled from the spec: the relying-party client record (clients.rs is
not part of the sources), with the fields login_start reads: id,
force_mfa, and the allowed CORS origins returned by get_allowed_origins. -/
structure Client where
  id : String
  force_mfa : Bool
  allowed_origins : Option (List String)
deriving DecidableEq, Repr

/-- request::ProviderLoginRequest, with the fields read by login_start. -/
structure ProviderLoginRequest where
  provider_id : String
  client_id : String
  scopes : Option (List String)
  redirect_uri : String
  state : Option String
  nonce : Option String
  code_challenge : Option String
  code_challenge_method : Option String
  pkce_challenge : String
deriving DecidableEq, Repr

/-- request::ProviderCallbackRequest, with the fields read by
login_finish. -/
structure ProviderCallbackRequest where
  state : String
  code : String
  xsrf_token : String
  pkce_verifier : String
deriving DecidableEq, Repr

/-- AuthProviderCallback (lines 488-513): the ephemeral, cache-backed
session record for one in-flight upstream login. -/
structure AuthProviderCallback where
  callback_id : String
  xsrf_token : String
  typ : AuthProviderType
  client_id : String
  client_scope : List String
  client_force_mfa : Bool
  client_redirect_uri : String
  client_state : Option String
  client_nonce : Option String
  client_code_challenge : Option String
  client_code_challenge_method : Option String
  provider_id : String
  provider_issuer : String
  provider_token_endpoint : String
  provider_client_id : String
  provider_secret : Option (List Nat)
  allow_insecure_requests : Bool
  use_pkce : Bool
  root_pem : Option String
  pkce_challenge : String
deriving DecidableEq, Repr

/-- AuthProviderTokenSet (lines 1039-1046): the parsed upstream /token
response. -/
structure AuthProviderTokenSet where
  access_token : String
  token_type : Option String
  id_token : Option String
  expires_in : Int
  refresh_token : Option String
deriving DecidableEq, Repr

/-- One session-store write performed by login_start. -/
inductive StartOp
  | save_session (slf : AuthProviderCallback)
deriving DecidableEq, Repr

/-- The successful output of login_start: encrypted cookie value, xsrf
token, Location header target, allowed origins (line 563). -/
structure StartOk where
  cookie : List Char
  xsrf_token : String
  location : String
  allowed_origins : Option (List String)
deriving DecidableEq, Repr

/-- AuthProviderCallback::login_start (lines 564-637). provider_find,
client_find and sanitize_scopes stand for AuthProvider::find,
Client::find and Client::sanitize_login_scopes (the latter two live in
clients.rs, outside the sources); encrypt stands for EncValue::encrypt
plus base64_encode of the callback id; save for the cache insert;
rand_callback_id and rand_xsrf for the two secure_random_alnum(32)
draws. -/
def login_start
    (provider_find : String → Except ErrorResponse AuthProvider)
    (client_find : String → Except ErrorResponse Client)
    (sanitize_scopes : Client → Option (List String) → Except ErrorResponse (List String))
    (encrypt : String → List Char)
    (save : AuthProviderCallback → Except ErrorResponse Unit)
    (rand_callback_id rand_xsrf : String)
    (callback_uri : String)
    (payload : ProviderLoginRequest) : Except ErrorResponse StartOk × List StartOp :=
  match provider_find payload.provider_id with
  | .error e => (.error e, [])
  | .ok provider =>
    match client_find payload.client_id with
    | .error e => (.error e, [])
    | .ok client =>
      match sanitize_scopes client payload.scopes with
      | .error e => (.error e, [])
      | .ok client_scope =>
        let slf : AuthProviderCallback :=
          { callback_id := rand_callback_id
            xsrf_token := rand_xsrf
            typ := provider.typ
            client_id := client.id
            client_scope := client_scope
            client_force_mfa := client.force_mfa
            client_redirect_uri := payload.redirect_uri
            client_state := payload.state
            client_nonce := payload.nonce
            client_code_challenge := payload.code_challenge
            client_code_challenge_method := payload.code_challenge_method
            provider_id := provider.id
            provider_issuer := provider.issuer
            provider_token_endpoint := provider.token_endpoint
            provider_client_id := provider.client_id
            provider_secret := provider.secret
            allow_insecure_requests := provider.allow_insecure_requests
            use_pkce := provider.use_pkce
            root_pem := provider.root_pem
            pkce_challenge := payload.pkce_challenge }
        let location :=
          provider.authorization_endpoint ++ "?client_id=" ++ slf.provider_client_id
            ++ "&redirect_uri=" ++ callback_uri ++ "&response_type=code&scope="
            ++ provider.scope ++ "&state=" ++ slf.callback_id
        let location :=
          if provider.use_pkce then
            location ++ "&code_challenge=" ++ slf.pkce_challenge
              ++ "&code_challenge_method=S256"
          else location
        let cookie := encrypt slf.callback_id
        match save slf with
        | .error e => (.error e, [.save_session slf])
        | .ok _ =>
          (.ok ⟨cookie, slf.xsrf_token, location, client.allowed_origins⟩,
            [.save_session slf])

/-- One observable action of login_finish: a session-record deletion
(AuthProviderCallback::delete) or a consultation of the upstream token
endpoint. -/
inductive FinishOp
  | delete_session (callback_id : String)
  | token_exchange
deriving DecidableEq, Repr

/-- Outcome of the upstream code-for-token POST: a non-2xx status with an
optional body, an unparsable 2xx body, or a parsed token set. -/
inductive TokenExchangeResult
  | http_error (status : Nat) (body : Option String)
  | invalid_body (err : String)
  | ok (ts : AuthProviderTokenSet)
deriving Repr

/-- The result of login_finish. The source function can return an error,
or reach one of the two todo!() macros on the fully-validated path (the
forced-MFA branch at line 760 and the final return at line 772), which
panic at runtime: unimplemented models reaching either todo!(). The ok
variant exists because the declared Rust return type is
Result<Self, ErrorResponse>; no execution path produces it. -/
inductive FinishResult
  | ok (slf : AuthProviderCallback)
  | err (e : ErrorResponse)
  | unimplemented
deriving DecidableEq, Repr

/-- The non-2xx /token error message of lines 706-718. -/
def token_http_error_message (slf : AuthProviderCallback) (status : Nat)
    (body : Option String) : String :=
  match body with
  | some b =>
    "HTTP " ++ toString status ++ " during POST " ++ slf.provider_token_endpoint
      ++ " for upstream auth provider " ++ slf.provider_client_id ++ "\n" ++ b
  | none =>
    "HTTP " ++ toString status ++ " during POST " ++ slf.provider_token_endpoint
      ++ " for upstream auth provider " ++ slf.provider_client_id ++ " without any body"

/-- AuthProviderCallback::login_finish (lines 640-773). decrypt_cookie
stands for base64_decode plus EncValue decryption of the cookie value;
find for the cache lookup keyed by callback id (None becomes the NotFound
error of AuthProviderCallback::find, lines 530-546); pkce_hash for the
URL-safe base64 of the SHA-256 digest of the verifier; exchange for
client construction, secret decryption and the POST to the token
endpoint; decode_claims, st and now feed validate_update_user. -/
def login_finish
    (decrypt_cookie : List Char → Except ErrorResponse String)
    (find : String → Option AuthProviderCallback)
    (pkce_hash : String → String)
    (exchange : AuthProviderCallback → ProviderCallbackRequest → TokenExchangeResult)
    (decode_claims : List Char → Except ErrorResponse AuthProviderIdClaims)
    (st : UserStores) (now : Int)
    (cookie : List Char) (payload : ProviderCallbackRequest) :
    FinishResult × List FinishOp :=
  match decrypt_cookie cookie with
  | .error e => (.err e, [])
  | .ok callback_id =>
    if callback_id ≠ payload.state then
      (.err ⟨.BadRequest, "`state` does not match"⟩, [.delete_session callback_id])
    else
      match find callback_id with
      | none => (.err ⟨.NotFound, "Callback Code not found - timeout reached?"⟩, [])
      | some slf =>
        if slf.xsrf_token ≠ payload.xsrf_token then
          (.err ⟨.Unauthorized, "invalid CSRF token"⟩, [.delete_session slf.callback_id])
        else if slf.pkce_challenge ≠ pkce_hash payload.pkce_verifier then
          (.err ⟨.Unauthorized, "invalid PKCE verifier"⟩, [.delete_session slf.callback_id])
        else
          match exchange slf payload with
          | .http_error status body =>
            (.err ⟨.Internal, token_http_error_message slf status body⟩, [.token_exchange])
          | .invalid_body err =>
            (.err ⟨.Internal,
              "Deserializing /token response from auth provider "
                ++ slf.provider_client_id ++ ": " ++ err⟩, [.token_exchange])
          | .ok ts =>
            match ts.id_token with
            | none =>
              (.err ⟨.Internal,
                "Did not receive an ID token from " ++ slf.provider_issuer
                  ++ " when one was expected"⟩, [.token_exchange])
            | some id_token =>
              match validate_update_user decode_claims st id_token slf.provider_id now with
              | (.error e, _) => (.err e, [.token_exchange])
              | (.ok _, _) => (.unimplemented, [.token_exchange])

/-- Replay the session-store effects of a finished call: deletions remove
the record from the cache view. -/
def apply_finish_ops (find : String → Option AuthProviderCallback)
    (ops : List FinishOp) : String → Option AuthProviderCallback :=
  ops.foldl
    (fun f op =>
      match op with
      | .delete_session id => fun k => if k = id then none else f k
      | .token_exchange => f)
    find

/-! ## Cookie encryption model

The session-id cookie is produced by cryptr EncValue (authenticated
encryption) and base64; neither crate is part of the sources. Modelled
from the spec: the cookie is an encrypted, signed-opaque value, so
decryption recovers exactly the encrypted session id and rejects any
ciphertext obtained from a valid one by altering a single byte. A scheme
is a pair of functions; the two properties are stated as hypotheses of
the theorems that need them, and the duplication code below gives a
concrete scheme satisfying both. -/

/-- An encryption scheme for the session-id cookie. -/
structure AeadScheme where
  encrypt : String → List Char
  decrypt : List Char → Except ErrorResponse String

/-- c differs from orig in exactly one position (same length). -/
def one_byte_altered : List Char → List Char → Bool
  | x :: t, y :: t' => (x ≠ y && t = t') || (x = y && one_byte_altered t t')
  | _, _ => false

/-- Duplication encoding: every character is written twice. -/
def dup_chars : List Char → List Char
  | [] => []
  | c :: cs => c :: c :: dup_chars cs

/-- Inverse of dup_chars: succeeds only when the input is a sequence of
equal pairs. -/
def undup_chars : List Char → Option (List Char)
  | [] => some []
  | [_] => none
  | a :: b :: t => if a = b then (undup_chars t).map (fun l => a :: l) else none

/-- A concrete scheme: duplication as (toy) authenticated encryption. Any
single-byte alteration breaks one pair and is rejected. -/
def toy_aead : AeadScheme where
  encrypt s := dup_chars s.data
  decrypt c :=
    match undup_chars c with
    | some l => .ok (String.mk l)
    | none => .error ⟨.BadRequest, "cookie decryption failed"⟩

/-! ## Concrete fixtures

Closed instances of the oracle parameters, used to evaluate the embedded
operations at explicit inputs. -/

/-- Decoded claims of a well-formed upstream ID token: subject U1,
email present. -/
def claims_fixture : AuthProviderIdClaims :=
  { iss := "https://op.example", sub := "U1", aud := none, azp := none, amr := none
    email := some "user@example.com", email_verified := some true
    given_name := some "Ada", family_name := some "L"
    address := none, birthdate := none, locale := none, phone := none }

/-- The same claims without the mandatory email. -/
def claims_no_email : AuthProviderIdClaims := { claims_fixture with email := none }

/-- The same claims with a different subject U2. -/
def claims_sub2 : AuthProviderIdClaims := { claims_fixture with sub := "U2" }

/-- A local federated user: linked to subject U1 under provider P1. -/
def user_fixture : User :=
  { id := "uid1", email := "user@example.com", given_name := "Ada", family_name := "L"
    enabled := true, email_verified := true
    last_login := none, last_failed_login := none, failed_login_attempts := none
    language := "en", auth_provider_id := some "P1", federation_uid := some "U1" }

/-- A claims decoder that accepts exactly the payload segment c. -/
def decode_fixture (c : AuthProviderIdClaims) :
    List Char → Except ErrorResponse AuthProviderIdClaims :=
  fun part =>
    if part = ['c'] then .ok c else .error ⟨.BadRequest, "claims decode failed"⟩

/-- User stores holding exactly user_fixture, with all writes accepted. -/
def stores_fixture : UserStores :=
  { find_by_email := fun e =>
      if e = "user@example.com" then .ok user_fixture
      else .error ⟨.NotFound, "user not found"⟩
    find_by_federation_uid := fun _ => .ok none
    save := fun _ _ => .ok ()
    create_federated := fun u => .ok u
    values_find := fun _ => .ok none
    values_upsert := fun _ _ => .ok () }

/-- A stored login session with id sid, xsrf token xs and the PKCE
challenge matching verifier v under pkce_hash_fixture. -/
def session_fixture : AuthProviderCallback :=
  { callback_id := "sid", xsrf_token := "xs", typ := .OIDC
    client_id := "cl", client_scope := ["openid"], client_force_mfa := false
    client_redirect_uri := "https://rp.example/cb", client_state := none
    client_nonce := none, client_code_challenge := none
    client_code_challenge_method := none
    provider_id := "P1", provider_issuer := "https://op.example"
    provider_token_endpoint := "https://op.example/token"
    provider_client_id := "cid", provider_secret := none
    allow_insecure_requests := false, use_pkce := true, root_pem := none
    pkce_challenge := "hash:v" }

/-- The session cache holding exactly session_fixture under key sid. -/
def session_store_fixture : String → Option AuthProviderCallback :=
  fun k => if k = "sid" then some session_fixture else none

/-- A cookie decrypter that accepts exactly the ciphertext k. -/
def decrypt_fixture : List Char → Except ErrorResponse String :=
  fun c => if c = ['k'] then .ok "sid" else .error ⟨.Internal, "decryption error"⟩

/-- A PKCE hash oracle: tags the verifier. -/
def pkce_hash_fixture : String → String := fun v => "hash:" ++ v

/-- A callback payload matching session_fixture in state, xsrf token and
PKCE verifier. -/
def callback_payload_fixture : ProviderCallbackRequest :=
  { state := "sid", code := "code", xsrf_token := "xs", pkce_verifier := "v" }

/-- A token exchange that fails upstream with HTTP 500. -/
def exchange_http_500 :
    AuthProviderCallback → ProviderCallbackRequest → TokenExchangeResult :=
  fun _ _ => .http_error 500 (some "server error")

/-- A token exchange returning a token set whose ID token is the
two-segment token h.c. -/
def exchange_ok_fixture :
    AuthProviderCallback → ProviderCallbackRequest → TokenExchangeResult :=
  fun _ _ => .ok
    { access_token := "at", token_type := some "Bearer", id_token := some "h.c"
      expires_in := 3600, refresh_token := none }

/-! ## Helper lemmas on splitting, trimming and joining -/

theorem split_on_char_ne_nil (sep : Char) (l : List Char) : split_on_char sep l ≠ [] := by
  induction l with
  | nil => simp [split_on_char]
  | cons c cs ih =>
    simp only [split_on_char]
    by_cases h : c = sep
    · simp [h]
    · rw [if_neg h]
      cases hs : split_on_char sep cs with
      | nil => simp
      | cons t ts => simp

theorem not_sep_of_mem_split_on_char (sep : Char) (l : List Char) :
    ∀ t ∈ split_on_char sep l, sep ∉ t := by
  induction l with
  | nil =>
    intro t ht
    simp only [split_on_char, List.mem_singleton] at ht
    simp [ht]
  | cons c cs ih =>
    intro t ht
    simp only [split_on_char] at ht
    by_cases h : c = sep
    · rw [if_pos h] at ht
      rcases List.mem_cons.mp ht with h1 | h1
      · simp [h1]
      · exact ih t h1
    · rw [if_neg h] at ht
      cases hs : split_on_char sep cs with
      | nil => exact absurd hs (split_on_char_ne_nil sep cs)
      | cons t0 ts0 =>
        rw [hs] at ht
        rcases List.mem_cons.mp ht with h1 | h1
        · subst h1
          intro hmem
          rcases List.mem_cons.mp hmem with h2 | h2
          · exact h h2.symm
          · exact ih t0 (by rw [hs]; exact List.mem_cons_self ..) h2
        · exact ih t (by rw [hs]; exact List.mem_cons_of_mem _ h1)

theorem mem_of_mem_split_on_char (sep : Char) (l : List Char) :
    ∀ t ∈ split_on_char sep l, ∀ c ∈ t, c ∈ l := by
  induction l with
  | nil =>
    intro t ht c hc
    simp only [split_on_char, List.mem_singleton] at ht
    subst ht
    simp at hc
  | cons a as ih =>
    intro t ht c hc
    simp only [split_on_char] at ht
    by_cases h : a = sep
    · rw [if_pos h] at ht
      rcases List.mem_cons.mp ht with h1 | h1
      · subst h1; simp at hc
      · exact List.mem_cons_of_mem _ (ih t h1 c hc)
    · rw [if_neg h] at ht
      cases hs : split_on_char sep as with
      | nil => exact absurd hs (split_on_char_ne_nil sep as)
      | cons t0 ts0 =>
        rw [hs] at ht
        rcases List.mem_cons.mp ht with h1 | h1
        · subst h1
          rcases List.mem_cons.mp hc with h2 | h2
          · simp [h2]
          · exact List.mem_cons_of_mem _
              (ih t0 (by rw [hs]; exact List.mem_cons_self ..) c h2)
        · exact List.mem_cons_of_mem _
            (ih t (by rw [hs]; exact List.mem_cons_of_mem _ h1) c hc)

theorem split_on_char_of_not_mem (sep : Char) (l : List Char) (h : sep ∉ l) :
    split_on_char sep l = [l] := by
  induction l with
  | nil => rfl
  | cons c cs ih =>
    have hc : ¬ c = sep := fun hh => h (by simp [hh])
    simp only [split_on_char, if_neg hc]
    rw [ih (fun hm => h (List.mem_cons_of_mem _ hm))]

theorem split_on_char_append (sep : Char) (t r : List Char) (h : sep ∉ t) :
    split_on_char sep (t ++ sep :: r) = t :: split_on_char sep r := by
  induction t with
  | nil => simp [split_on_char]
  | cons c cs ih =>
    have hc : ¬ c = sep := fun hh => h (by simp [hh])
    simp only [List.cons_append, split_on_char, if_neg hc, List.append_eq]
    rw [ih (fun hm => h (List.mem_cons_of_mem _ hm))]

theorem split_on_char_join_plus (ts : List (List Char)) (hne : ts ≠ [])
    (h : ∀ t ∈ ts, '+' ∉ t) :
    split_on_char '+' (join_plus ts) = ts := by
  induction ts with
  | nil => exact absurd rfl hne
  | cons t ts ih =>
    cases ts with
    | nil =>
      simp only [join_plus]
      exact split_on_char_of_not_mem '+' t (h t (List.mem_cons_self ..))
    | cons t2 ts2 =>
      rw [show join_plus (t :: t2 :: ts2) = t ++ '+' :: join_plus (t2 :: ts2) from rfl,
        split_on_char_append '+' t _ (h t (List.mem_cons_self ..)),
        ih (by simp) (fun u hu => h u (List.mem_cons_of_mem _ hu))]

theorem dropWhile_head_false (p : Char → Bool) (l : List Char) :
    ∀ c, (l.dropWhile p).head? = some c → p c = false := by
  induction l with
  | nil => intro c hc; simp [List.dropWhile] at hc
  | cons a as ih =>
    intro c hc
    by_cases h : p a
    · rw [List.dropWhile_cons, if_pos h] at hc
      exact ih c hc
    · rw [List.dropWhile_cons, if_neg h] at hc
      simp only [List.head?_cons, Option.some.injEq] at hc
      rw [← hc]
      simpa using h

theorem dropWhile_eq_self_of_head (p : Char → Bool) (l : List Char)
    (h : ∀ c, l.head? = some c → p c = false) : l.dropWhile p = l := by
  cases l with
  | nil => rfl
  | cons a as => simp [List.dropWhile_cons, h a rfl]

theorem head_append_left {α : Type} (a b : List α) (h : a ≠ []) :
    (a ++ b).head? = a.head? := by
  cases a with
  | nil => exact absurd rfl h
  | cons x xs => rfl

theorem dropWhile_reverse_head (p : Char → Bool) (r : List Char)
    (h : r.dropWhile p ≠ []) :
    (r.dropWhile p).reverse.head? = r.reverse.head? := by
  conv_rhs => rw [← List.takeWhile_append_dropWhile (p := p) (l := r)]
  rw [List.reverse_append]
  exact (head_append_left _ _ (by simpa using h)).symm

theorem trim_chars_trimmed (l : List Char) : trimmed_ends (trim_chars l) := by
  constructor
  · intro c hc
    unfold trim_chars at hc
    have hne : (l.dropWhile is_ws).reverse.dropWhile is_ws ≠ [] := by
      intro h0
      rw [h0] at hc
      simp at hc
    rw [dropWhile_reverse_head is_ws (l.dropWhile is_ws).reverse hne,
      List.reverse_reverse] at hc
    exact dropWhile_head_false is_ws l c hc
  · intro c hc
    unfold trim_chars at hc
    rw [List.reverse_reverse] at hc
    exact dropWhile_head_false is_ws _ c hc

theorem trim_chars_eq_self (l : List Char) (h : trimmed_ends l) : trim_chars l = l := by
  unfold trim_chars
  rw [dropWhile_eq_self_of_head is_ws l h.1,
    dropWhile_eq_self_of_head is_ws l.reverse h.2, List.reverse_reverse]

theorem mem_of_mem_dropWhile (p : Char → Bool) (l : List Char) :
    ∀ c ∈ l.dropWhile p, c ∈ l := by
  induction l with
  | nil => intro c hc; simp [List.dropWhile] at hc
  | cons a as ih =>
    intro c hc
    by_cases h : p a
    · rw [List.dropWhile_cons, if_pos h] at hc
      exact List.mem_cons_of_mem _ (ih c hc)
    · rw [List.dropWhile_cons, if_neg h] at hc
      exact hc

theorem mem_of_mem_trim_chars (l : List Char) : ∀ c ∈ trim_chars l, c ∈ l := by
  intro c hc
  unfold trim_chars at hc
  rw [List.mem_reverse] at hc
  have h1 := mem_of_mem_dropWhile is_ws _ c hc
  rw [List.mem_reverse] at h1
  exact mem_of_mem_dropWhile is_ws _ c h1

theorem join_plus_no_sep (ts : List (List Char)) (h : ∀ t ∈ ts, ' ' ∉ t) :
    ' ' ∉ join_plus ts := by
  induction ts with
  | nil => simp [join_plus]
  | cons t ts ih =>
    cases ts with
    | nil => simpa [join_plus] using h t (List.mem_cons_self ..)
    | cons t2 ts2 =>
      intro hm
      rw [show join_plus (t :: t2 :: ts2) = t ++ '+' :: join_plus (t2 :: ts2) from rfl] at hm
      rcases List.mem_append.mp hm with h1 | h1
      · exact h t (List.mem_cons_self ..) h1
      · rcases List.mem_cons.mp h1 with h2 | h2
        · exact absurd h2 (by decide)
        · exact ih (fun u hu => h u (List.mem_cons_of_mem _ hu)) h2

theorem join_plus_head (ts : List (List Char)) (h : ∀ t ∈ ts, head_not_ws t) :
    head_not_ws (join_plus ts) := by
  cases ts with
  | nil => intro c hc; simp [join_plus] at hc
  | cons t ts =>
    cases ts with
    | nil => simpa [join_plus] using h t (List.mem_cons_self ..)
    | cons t2 ts2 =>
      intro c hc
      rw [show join_plus (t :: t2 :: ts2) = t ++ '+' :: join_plus (t2 :: ts2) from rfl] at hc
      cases t with
      | nil =>
        simp only [List.nil_append, List.head?_cons, Option.some.injEq] at hc
        rw [← hc]; decide
      | cons x xs =>
        simp only [List.cons_append, List.head?_cons, Option.some.injEq] at hc
        rw [← hc]
        exact h (x :: xs) (List.mem_cons_self ..) x rfl

theorem join_plus_last (ts : List (List Char)) (h : ∀ t ∈ ts, head_not_ws t.reverse) :
    head_not_ws (join_plus ts).reverse := by
  induction ts with
  | nil => intro c hc; simp [join_plus] at hc
  | cons t ts ih =>
    cases ts with
    | nil => simpa [join_plus] using h t (List.mem_cons_self ..)
    | cons t2 ts2 =>
      intro c hc
      rw [show join_plus (t :: t2 :: ts2) = t ++ '+' :: join_plus (t2 :: ts2) from rfl,
        List.reverse_append, List.reverse_cons] at hc
      cases hJ : (join_plus (t2 :: ts2)).reverse with
      | nil =>
        rw [hJ] at hc
        simp only [List.nil_append, List.cons_append, List.head?_cons,
          Option.some.injEq] at hc
        rw [← hc]; decide
      | cons y ys =>
        rw [hJ] at hc
        simp only [List.cons_append, List.head?_cons, Option.some.injEq] at hc
        rw [← hc]
        exact ih (fun u hu => h u (List.mem_cons_of_mem _ hu)) y (by rw [hJ]; rfl)

theorem cleanup_tokens_trimmed (l : List Char) :
    ∀ t ∈ (split_on_char ' ' l).filterMap
      (fun s => if s ≠ [] then some (trim_chars s) else none),
      trimmed_ends t ∧ ' ' ∉ t := by
  intro t ht
  rw [List.mem_filterMap] at ht
  obtain ⟨s, hs, hfs⟩ := ht
  by_cases hne : s ≠ []
  · rw [if_pos hne] at hfs
    have hts : trim_chars s = t := Option.some.inj hfs
    subst hts
    refine ⟨trim_chars_trimmed s, fun hm => ?_⟩
    exact not_sep_of_mem_split_on_char ' ' l s hs (mem_of_mem_trim_chars s ' ' hm)
  · rw [if_neg hne] at hfs
    exact absurd hfs (by simp)

theorem cleanup_scope_chars_idem (l : List Char) :
    cleanup_scope_chars (cleanup_scope_chars l) = cleanup_scope_chars l := by
  have hmem := cleanup_tokens_trimmed l
  generalize hts :
    (split_on_char ' ' l).filterMap (fun s => if s ≠ [] then some (trim_chars s) else none)
      = ts at hmem
  have hcl : cleanup_scope_chars l = join_plus ts := by
    unfold cleanup_scope_chars
    rw [hts]
  rw [hcl]
  have hr_nospace : ' ' ∉ join_plus ts := join_plus_no_sep ts (fun t ht => (hmem t ht).2)
  unfold cleanup_scope_chars
  rw [split_on_char_of_not_mem ' ' _ hr_nospace]
  by_cases hrnil : join_plus ts = []
  · rw [hrnil]
    rfl
  · have htr : trimmed_ends (join_plus ts) :=
      ⟨join_plus_head ts (fun t ht => (hmem t ht).1.1),
       join_plus_last ts (fun t ht => (hmem t ht).1.2)⟩
    simp only [List.filterMap, if_pos hrnil]
    rw [trim_chars_eq_self _ htr]
    rfl

theorem cleanup_tokens_plain (l : List Char)
    (h1 : ∀ c ∈ l, is_ws c = true → c = ' ') (h2 : '+' ∉ l) :
    ∀ t ∈ (split_on_char ' ' l).filterMap
      (fun s => if s ≠ [] then some (trim_chars s) else none),
      t ≠ [] ∧ '+' ∉ t := by
  intro t ht
  rw [List.mem_filterMap] at ht
  obtain ⟨s, hs, hfs⟩ := ht
  by_cases hne : s ≠ []
  · rw [if_pos hne] at hfs
    have hnows : ∀ c ∈ s, is_ws c = false := by
      intro c hc
      by_cases hw : is_ws c = true
      · exact absurd (h1 c (mem_of_mem_split_on_char ' ' l s hs c hc) hw)
          (fun hsp => not_sep_of_mem_split_on_char ' ' l s hs (hsp ▸ hc))
      · simpa using hw
    have hts : trim_chars s = s := by
      refine trim_chars_eq_self s ⟨?_, ?_⟩
      · intro c hc
        cases s with
        | nil => simp at hc
        | cons a as =>
          rw [List.head?_cons] at hc
          exact Option.some.inj hc ▸ hnows a (List.mem_cons_self ..)
      · intro c hc
        cases hrev : s.reverse with
        | nil => rw [hrev] at hc; simp at hc
        | cons a as =>
          rw [hrev, List.head?_cons] at hc
          have : a ∈ s := by
            rw [← List.mem_reverse, hrev]
            exact List.mem_cons_self ..
          exact Option.some.inj hc ▸ hnows a this
    have hst : s = t := by rw [← hts]; exact Option.some.inj hfs
    subst hst
    exact ⟨hne, fun hm => h2 (mem_of_mem_split_on_char ' ' l s hs '+' hm)⟩
  · rw [if_neg hne] at hfs
    exact absurd hfs (by simp)

/-- C8: scope normalization (AuthProvider::cleanup_scope) is idempotent
for every input string; and when the input contains no plus character and
no whitespace other than the space character, the normalized result
contains no empty tokens and no duplicate separators (every piece of a
plus-split of the result is nonempty). -/
theorem cleanup_scope_idem_and_clean (s : String) :
    cleanup_scope (cleanup_scope s) = cleanup_scope s ∧
    ((∀ c ∈ s.data, is_ws c = true → c = ' ') → '+' ∉ s.data →
      cleanup_scope s = "" ∨
        ∀ t ∈ split_on_char '+' (cleanup_scope s).data, t ≠ []) := by
  constructor
  · show String.mk (cleanup_scope_chars (String.mk (cleanup_scope_chars s.data)).data)
      = String.mk (cleanup_scope_chars s.data)
    rw [show (String.mk (cleanup_scope_chars s.data)).data
      = cleanup_scope_chars s.data from rfl, cleanup_scope_chars_idem]
  · intro h1 h2
    have hmem := cleanup_tokens_plain s.data h1 h2
    cases hts :
      (split_on_char ' ' s.data).filterMap
        (fun u => if u ≠ [] then some (trim_chars u) else none) with
    | nil =>
      left
      show String.mk (cleanup_scope_chars s.data) = ""
      unfold cleanup_scope_chars
      rw [hts]
      rfl
    | cons t0 ts0 =>
      right
      intro t ht
      rw [hts] at hmem
      have hdata : (cleanup_scope s).data = join_plus (t0 :: ts0) := by
        show (String.mk (cleanup_scope_chars s.data)).data = _
        unfold cleanup_scope_chars
        rw [hts]
      rw [hdata, split_on_char_join_plus (t0 :: ts0) (by simp)
        (fun u hu => (hmem u hu).2)] at ht
      exact (hmem t ht).1

/-- C8 counterexample: the claim as stated fails, because a token whose
whitespace survives the space-split but dies under trim produces empty
tokens: cleanup_scope of "a \t b" is "a++b", whose plus-split contains an
empty token (and which visibly carries the duplicate separator "++"). -/
theorem cleanup_scope_not_clean_on_tab :
    cleanup_scope "a \t b" = "a++b" ∧
      [] ∈ split_on_char '+' (cleanup_scope "a \t b").data := by
  constructor
  · decide
  · decide

/-- C8 witness: the amended theorem applied at the concrete scope string
"openid profile". -/
theorem cleanup_scope_idem_and_clean_witness :
    cleanup_scope (cleanup_scope "openid profile") = cleanup_scope "openid profile" ∧
    (cleanup_scope "openid profile" = "" ∨
      ∀ t ∈ split_on_char '+' (cleanup_scope "openid profile").data, t ≠ []) :=
  ⟨(cleanup_scope_idem_and_clean "openid profile").1,
   (cleanup_scope_idem_and_clean "openid profile").2 (by decide) (by decide)⟩

/-- C10: the From-String conversion of AuthProviderType never fails:
every string other than "oidc" is silently mapped to the OIDC variant,
while the TryFrom conversion rejects exactly the same input as a bad
request. -/
theorem auth_provider_type_from_string_total (s : String) (h : s ≠ "oidc") :
    AuthProviderType.try_from s = .error ⟨.BadRequest, "Invalid AuthProviderType"⟩ ∧
    AuthProviderType.from_string s = .OIDC := by
  constructor
  · unfold AuthProviderType.try_from
    rw [if_neg h]
  · unfold AuthProviderType.from_string AuthProviderType.try_from
    rw [if_neg h]

/-- C10 witness: the conversion contrast at the concrete string "saml". -/
theorem auth_provider_type_from_string_total_witness :
    AuthProviderType.try_from "saml"
        = .error ⟨.BadRequest, "Invalid AuthProviderType"⟩ ∧
    AuthProviderType.from_string "saml" = .OIDC :=
  auth_provider_type_from_string_total "saml" (by decide)

/-- C7: for every successfully fetched and parsed discovery document,
lookup_config reports basic token auth exactly when client_secret_post is
not advertised, PKCE exactly when S256 is advertised, and a scope whose
tokens are the subset of openid, profile, email present in
scopes_supported, in that fixed order. -/
theorem lookup_config_discovery_mapping (wk : WellKnown) (config_url : String)
    (danger : Bool) :
    ∃ r, lookup_config (.ok wk) config_url danger = .ok r ∧
      (r.token_auth_method_basic = true ↔
        "client_secret_post" ∉ wk.token_endpoint_auth_methods_supported) ∧
      (r.use_pkce = true ↔ "S256" ∈ wk.code_challenge_methods_supported) ∧
      scope_tokens r.scope
        = ["openid", "profile", "email"].filter
            (fun s => wk.scopes_supported.contains s) := by
  refine ⟨_, rfl, ?_, ?_, ?_⟩
  · show (!(wk.token_endpoint_auth_methods_supported.contains "client_secret_post")) = true
      ↔ _
    rw [Bool.not_eq_true']
    constructor
    · intro hfalse hmem
      have htrue : wk.token_endpoint_auth_methods_supported.contains "client_secret_post"
          = true := List.elem_iff.mpr hmem
      rw [htrue] at hfalse
      exact Bool.noConfusion hfalse
    · intro hnmem
      cases hcon : wk.token_endpoint_auth_methods_supported.contains "client_secret_post"
      · rfl
      · exact absurd (List.elem_iff.mp hcon) hnmem
  · exact List.elem_iff
  · cases hc1 : wk.scopes_supported.contains "openid" <;>
      cases hc2 : wk.scopes_supported.contains "profile" <;>
        cases hc3 : wk.scopes_supported.contains "email" <;>
          simp only [scope_tokens, hc1, hc2, hc3, if_true, if_false,
            List.filter, Bool.false_eq_true, Bool.true_eq_false] <;>
            decide

/-- C1: when validate_update_user finds an existing local user whose
stored federation_uid differs from the token subject or whose stored
auth_provider_id differs from the current provider, the call fails as
Forbidden, and the persisted user is exactly the stored one with the
failed-login counter bumped by one and the failed-login timestamp set:
email, given name and family name are unchanged. -/
theorem validate_update_user_forbidden_mismatch
    (decode_claims : List Char → Except ErrorResponse AuthProviderIdClaims)
    (st : UserStores) (token auth_provider_id : String) (now : Int)
    (hpart cpart : List Char) (rest : List (List Char))
    (slf : AuthProviderIdClaims) (em : String) (user : User)
    (hsplit : split_on_char '.' token.data = hpart :: cpart :: rest)
    (hdec : decode_claims cpart = .ok slf)
    (hemail : slf.email = some em)
    (hfind : st.find_by_email em = .ok user ∨
      ((∃ e0, st.find_by_email em = .error e0) ∧
        st.find_by_federation_uid slf.sub = .ok (some user)))
    (hmis : user.federation_uid ≠ some slf.sub ∨
      user.auth_provider_id ≠ some auth_provider_id)
    (hsave : st.save (bump_failed user now) none = .ok ()) :
    (∃ msg lookup_ops, validate_update_user decode_claims st token auth_provider_id now =
      (.error ⟨.Forbidden, msg⟩,
        lookup_ops ++ [.save (bump_failed user now) none]) ∧
      (lookup_ops = [.find_by_email em] ∨
        lookup_ops = [.find_by_email em, .find_by_federation_uid slf.sub])) ∧
    (bump_failed user now).email = user.email ∧
    (bump_failed user now).given_name = user.given_name ∧
    (bump_failed user now).family_name = user.family_name ∧
    (bump_failed user now).failed_login_attempts
      = some (user.failed_login_attempts.getD 0 + 1) ∧
    (bump_failed user now).last_failed_login = some now := by
  have hforb : ∃ msg, forbidden_error user slf.sub auth_provider_id = some msg := by
    unfold forbidden_error
    by_cases hap : user.auth_provider_id ≠ some auth_provider_id
    · exact ⟨_, by rw [if_pos hap]⟩
    · rcases hmis with hfed | hfed
      · exact ⟨_, by rw [if_neg hap, if_pos (Or.inr hfed)]⟩
      · exact absurd hfed hap
  obtain ⟨msg, hmsg⟩ := hforb
  rcases hfind with hmail | ⟨⟨e0, he0⟩, hfed⟩
  · refine ⟨⟨msg, [.find_by_email em], ?_, Or.inl rfl⟩, rfl, rfl, rfl, rfl, rfl⟩
    unfold validate_update_user
    rw [hsplit]
    simp only [hdec, hemail, hmail]
    unfold reconcile_user
    simp only [hmsg, hsave]
  · refine ⟨⟨msg, [.find_by_email em, .find_by_federation_uid slf.sub], ?_,
      Or.inr rfl⟩, rfl, rfl, rfl, rfl, rfl⟩
    unfold validate_update_user
    rw [hsplit]
    simp only [hdec, hemail, he0, hfed]
    unfold reconcile_user
    simp only [hmsg, hsave]

/-- C1 witness: a token asserting subject U2 against the stored user
federated as U1 under provider P1. -/
theorem validate_update_user_forbidden_mismatch_witness :
    (∃ msg lookup_ops, validate_update_user (decode_fixture claims_sub2) stores_fixture
        "h.c" "P1" 1700000000 =
      (.error ⟨.Forbidden, msg⟩,
        lookup_ops ++ [.save (bump_failed user_fixture 1700000000) none]) ∧
      (lookup_ops = [.find_by_email "user@example.com"] ∨
        lookup_ops = [.find_by_email "user@example.com",
          .find_by_federation_uid claims_sub2.sub])) ∧
    (bump_failed user_fixture 1700000000).email = user_fixture.email ∧
    (bump_failed user_fixture 1700000000).given_name = user_fixture.given_name ∧
    (bump_failed user_fixture 1700000000).family_name = user_fixture.family_name ∧
    (bump_failed user_fixture 1700000000).failed_login_attempts
      = some (user_fixture.failed_login_attempts.getD 0 + 1) ∧
    (bump_failed user_fixture 1700000000).last_failed_login = some 1700000000 :=
  validate_update_user_forbidden_mismatch (decode_fixture claims_sub2) stores_fixture
    "h.c" "P1" 1700000000 ['h'] ['c'] [] claims_sub2 "user@example.com" user_fixture
    (by decide) (by decide) (by decide) (Or.inl (by decide)) (Or.inl (by decide))
    (by decide)

/-- C4: when the decoded ID-token claims lack the email field,
validate_update_user fails as BadRequest with an empty store trace: no
user record is read or written and no profile-values call occurs. -/
theorem validate_update_user_missing_email
    (decode_claims : List Char → Except ErrorResponse AuthProviderIdClaims)
    (st : UserStores) (token auth_provider_id : String) (now : Int)
    (hpart cpart : List Char) (rest : List (List Char))
    (slf : AuthProviderIdClaims)
    (hsplit : split_on_char '.' token.data = hpart :: cpart :: rest)
    (hdec : decode_claims cpart = .ok slf)
    (hemail : slf.email = none) :
    validate_update_user decode_claims st token auth_provider_id now =
      (.error ⟨.BadRequest, "No `email` in ID token claims. This is a mandatory claim"⟩,
        []) := by
  unfold validate_update_user
  rw [hsplit]
  simp only [hdec, hemail]

/-- C4 witness: the email-less claims at the concrete token h.c. -/
theorem validate_update_user_missing_email_witness :
    validate_update_user (decode_fixture claims_no_email) stores_fixture
        "h.c" "P1" 1700000000 =
      (.error ⟨.BadRequest, "No `email` in ID token claims. This is a mandatory claim"⟩,
        []) :=
  validate_update_user_missing_email (decode_fixture claims_no_email) stores_fixture
    "h.c" "P1" 1700000000 ['h'] ['c'] [] claims_no_email
    (by decide) (by decide) (by decide)

/-- C2: the claim fails on the code. A callback whose state, anti-forgery
token and PKCE verifier all match the stored session but whose upstream
token exchange answers HTTP 500 makes login_finish return the Internal
error with a trace holding no session deletion, although the doc comment
of login_finish promises deletion of the callback code on any error. -/
theorem login_finish_http_error_no_delete :
    login_finish decrypt_fixture session_store_fixture pkce_hash_fixture exchange_http_500
        (decode_fixture claims_fixture) stores_fixture 1700000000 ['k']
        callback_payload_fixture
      = (.err ⟨.Internal,
          token_http_error_message session_fixture 500 (some "server error")⟩,
         [.token_exchange]) ∧
    ∀ id, FinishOp.delete_session id ∉ [FinishOp.token_exchange] := by
  refine ⟨by decide, ?_⟩
  intro id h
  rcases List.mem_singleton.mp h with h1
  exact FinishOp.noConfusion h1

/-- C3: the claim rests on a success path the code does not have. A fully
valid callback (matching state, anti-forgery token and PKCE verifier,
successful exchange with an ID token, successful reconciliation,
client_force_mfa false) drives login_finish into todo, with no deletion
of the session record; replaying the produced effects leaves the record
in the store, so an identical second call again reaches todo instead of
failing as not-found; and no input at all makes login_finish return the
ok variant. -/
theorem login_finish_success_unimplemented_not_single_use :
    (login_finish decrypt_fixture session_store_fixture pkce_hash_fixture
        exchange_ok_fixture (decode_fixture claims_fixture) stores_fixture 1700000000
        ['k'] callback_payload_fixture
      = (.unimplemented, [.token_exchange])) ∧
    (login_finish decrypt_fixture
        (apply_finish_ops session_store_fixture [.token_exchange]) pkce_hash_fixture
        exchange_ok_fixture (decode_fixture claims_fixture) stores_fixture 1700000000
        ['k'] callback_payload_fixture
      = (.unimplemented, [.token_exchange])) ∧
    (∀ (decrypt_cookie : List Char → Except ErrorResponse String)
        (find : String → Option AuthProviderCallback) (pkce_hash : String → String)
        (exchange : AuthProviderCallback → ProviderCallbackRequest → TokenExchangeResult)
        (decode_claims : List Char → Except ErrorResponse AuthProviderIdClaims)
        (st : UserStores) (now : Int) (cookie : List Char)
        (payload : ProviderCallbackRequest) (r : AuthProviderCallback),
      (login_finish decrypt_cookie find pkce_hash exchange decode_claims st now
        cookie payload).1 ≠ .ok r) := by
  refine ⟨by decide, by decide, ?_⟩
  intro decrypt_cookie find pkce_hash exchange decode_claims st now cookie payload r
  cases hdc : decrypt_cookie cookie with
  | error e => simp [login_finish, hdc]
  | ok cid =>
    by_cases hst : cid ≠ payload.state
    · simp [login_finish, hdc, hst]
    · cases hfind : find cid with
      | none => simp [login_finish, hdc, hst, hfind]
      | some slf =>
        by_cases hx : slf.xsrf_token ≠ payload.xsrf_token
        · simp [login_finish, hdc, hst, hfind, hx]
        · by_cases hp : slf.pkce_challenge ≠ pkce_hash payload.pkce_verifier
          · simp [login_finish, hdc, hst, hfind, hx, hp]
          · cases hex : exchange slf payload with
            | http_error s b => simp [login_finish, hdc, hst, hfind, hx, hp, hex]
            | invalid_body e2 => simp [login_finish, hdc, hst, hfind, hx, hp, hex]
            | ok ts =>
              cases hid : ts.id_token with
              | none => simp [login_finish, hdc, hst, hfind, hx, hp, hex, hid]
              | some idt =>
                cases hval : validate_update_user decode_claims st idt slf.provider_id now
                  with
                | mk res ops =>
                  cases res with
                  | error e3 =>
                    simp [login_finish, hdc, hst, hfind, hx, hp, hex, hid, hval]
                  | ok u =>
                    simp [login_finish, hdc, hst, hfind, hx, hp, hex, hid, hval]

/-- C5 amended: whenever the decrypted cookie id differs from the state
presented by the callback, login_finish fails with the bad-request
state-mismatch error (not the unauthorized class used for anti-forgery
and PKCE mismatches) and deletes the session record named by the
decrypted id. -/
theorem login_finish_state_mismatch_bad_request
    (decrypt_cookie : List Char → Except ErrorResponse String)
    (find : String → Option AuthProviderCallback) (pkce_hash : String → String)
    (exchange : AuthProviderCallback → ProviderCallbackRequest → TokenExchangeResult)
    (decode_claims : List Char → Except ErrorResponse AuthProviderIdClaims)
    (st : UserStores) (now : Int) (cookie : List Char)
    (payload : ProviderCallbackRequest) (cid : String)
    (hdec : decrypt_cookie cookie = .ok cid) (hne : cid ≠ payload.state) :
    login_finish decrypt_cookie find pkce_hash exchange decode_claims st now
        cookie payload
      = (.err ⟨.BadRequest, "`state` does not match"⟩, [.delete_session cid]) := by
  unfold login_finish
  rw [hdec]
  simp only [if_pos hne]

/-- C5 counterexample: at a concrete state-mismatching callback the error
class is BadRequest, not Unauthorized as the claim states; the session
record is deleted. -/
theorem login_finish_state_mismatch_not_unauthorized :
    login_finish decrypt_fixture session_store_fixture pkce_hash_fixture exchange_http_500
        (decode_fixture claims_fixture) stores_fixture 1700000000 ['k']
        { callback_payload_fixture with state := "other" }
      = (.err ⟨.BadRequest, "`state` does not match"⟩, [.delete_session "sid"]) ∧
    ErrorResponseType.BadRequest ≠ ErrorResponseType.Unauthorized := by
  exact ⟨by decide, by decide⟩

/-- C5 witness: the amended theorem applied at a concrete mismatching
callback. -/
theorem login_finish_state_mismatch_bad_request_witness :
    login_finish decrypt_fixture session_store_fixture pkce_hash_fixture exchange_http_500
        (decode_fixture claims_fixture) stores_fixture 1700000000 ['k']
        { callback_payload_fixture with state := "zz" }
      = (.err ⟨.BadRequest, "`state` does not match"⟩, [.delete_session "sid"]) :=
  login_finish_state_mismatch_bad_request decrypt_fixture session_store_fixture
    pkce_hash_fixture exchange_http_500 (decode_fixture claims_fixture) stores_fixture
    1700000000 ['k'] { callback_payload_fixture with state := "zz" } "sid"
    (by decide) (by decide)

theorem undup_dup (l : List Char) : undup_chars (dup_chars l) = some l := by
  induction l with
  | nil => rfl
  | cons c cs ih => simp [dup_chars, undup_chars, ih]

theorem undup_one_altered (l : List Char) :
    ∀ c, one_byte_altered (dup_chars l) c = true → undup_chars c = none := by
  induction l with
  | nil =>
    intro c hc
    cases c with
    | nil => simp [dup_chars, one_byte_altered] at hc
    | cons y t => simp [dup_chars, one_byte_altered] at hc
  | cons a as ih =>
    intro c hc
    cases c with
    | nil => simp [dup_chars, one_byte_altered] at hc
    | cons y t =>
      simp only [dup_chars, one_byte_altered, Bool.or_eq_true, Bool.and_eq_true,
        decide_eq_true_eq] at hc
      rcases hc with ⟨hne, heq⟩ | ⟨heq, hrest⟩
      · rw [← heq]
        simp [undup_chars, Ne.symm hne]
      · rw [← heq]
        cases t with
        | nil => simp [one_byte_altered] at hrest
        | cons z t2 =>
          simp only [one_byte_altered, Bool.or_eq_true, Bool.and_eq_true,
            decide_eq_true_eq] at hrest
          rcases hrest with ⟨hne2, heq2⟩ | ⟨heq2, hrest2⟩
          · simp [undup_chars, hne2]
          · rw [← heq2]
            simp [undup_chars, ih t2 hrest2]

theorem toy_aead_tamper :
    ∀ s c, one_byte_altered (toy_aead.encrypt s) c = true →
      ∃ e, toy_aead.decrypt c = .error e := by
  intro s c h
  refine ⟨⟨.BadRequest, "cookie decryption failed"⟩, ?_⟩
  simp only [toy_aead]
  rw [undup_one_altered s.data c h]

theorem toy_aead_round_trip (s : String) : toy_aead.decrypt (toy_aead.encrypt s) = .ok s := by
  simp only [toy_aead]
  rw [undup_dup]

/-- C6 amended: for every cookie-encryption scheme that detects one-byte
tampering (the spec requires the cookie to be encrypted and signed, and
the cryptr EncValue crate is authenticated encryption), a cookie derived
from a valid encrypted session id by altering one byte makes login_finish
fail with the decryption error, with an empty trace: no session deletion
and no upstream token exchange. -/
theorem login_finish_tampered_cookie_rejected
    (A : AeadScheme)
    (h_tamper : ∀ s c, one_byte_altered (A.encrypt s) c = true →
      ∃ e, A.decrypt c = .error e)
    (find : String → Option AuthProviderCallback) (pkce_hash : String → String)
    (exchange : AuthProviderCallback → ProviderCallbackRequest → TokenExchangeResult)
    (decode_claims : List Char → Except ErrorResponse AuthProviderIdClaims)
    (st : UserStores) (now : Int) (payload : ProviderCallbackRequest)
    (s : String) (c : List Char)
    (halt : one_byte_altered (A.encrypt s) c = true) :
    ∃ e, A.decrypt c = .error e ∧
      login_finish A.decrypt find pkce_hash exchange decode_claims st now c payload
        = (.err e, []) := by
  obtain ⟨e, he⟩ := h_tamper s c halt
  refine ⟨e, he, ?_⟩
  unfold login_finish
  rw [he]

/-- C6 counterexample: altering the first byte of the valid encrypted
cookie for session sid makes login_finish fail with the cookie-decryption
error, which is not the state-mismatch error the claim names; the trace
is empty, so the token exchange is never consulted. -/
theorem login_finish_tampered_cookie_not_state_mismatch :
    one_byte_altered (toy_aead.encrypt "sid")
        ['X', 's', 'i', 'i', 'd', 'd'] = true ∧
    login_finish toy_aead.decrypt session_store_fixture pkce_hash_fixture
        exchange_http_500 (decode_fixture claims_fixture) stores_fixture 1700000000
        ['X', 's', 'i', 'i', 'd', 'd'] callback_payload_fixture
      = (.err ⟨.BadRequest, "cookie decryption failed"⟩, []) ∧
    (⟨.BadRequest, "cookie decryption failed"⟩ : ErrorResponse)
      ≠ ⟨.BadRequest, "`state` does not match"⟩ := by
  exact ⟨by decide, by decide, by decide⟩

/-- C6 witness: the amended theorem applied to the duplication scheme and
the concrete tampered cookie. -/
theorem login_finish_tampered_cookie_rejected_witness :
    ∃ e, toy_aead.decrypt ['s', 's', 'i', 'Y', 'd', 'd'] = .error e ∧
      login_finish toy_aead.decrypt session_store_fixture pkce_hash_fixture
          exchange_http_500 (decode_fixture claims_fixture) stores_fixture 1700000000
          ['s', 's', 'i', 'Y', 'd', 'd'] callback_payload_fixture
        = (.err e, []) :=
  login_finish_tampered_cookie_rejected toy_aead toy_aead_tamper session_store_fixture
    pkce_hash_fixture exchange_http_500 (decode_fixture claims_fixture) stores_fixture
    1700000000 callback_payload_fixture "sid" ['s', 's', 'i', 'Y', 'd', 'd'] (by decide)

/-- C9: when login_start fails because the provider lookup, the client
lookup or the scope sanitization errors, the error is returned with an
empty trace: no session record is persisted. -/
theorem login_start_no_persist_on_validation_failure
    (provider_find : String → Except ErrorResponse AuthProvider)
    (client_find : String → Except ErrorResponse Client)
    (sanitize_scopes : Client → Option (List String) → Except ErrorResponse (List String))
    (encrypt : String → List Char)
    (save : AuthProviderCallback → Except ErrorResponse Unit)
    (rand_callback_id rand_xsrf callback_uri : String)
    (payload : ProviderLoginRequest) :
    (∀ e, provider_find payload.provider_id = .error e →
      login_start provider_find client_find sanitize_scopes encrypt save
        rand_callback_id rand_xsrf callback_uri payload = (.error e, [])) ∧
    (∀ p e, provider_find payload.provider_id = .ok p →
      client_find payload.client_id = .error e →
      login_start provider_find client_find sanitize_scopes encrypt save
        rand_callback_id rand_xsrf callback_uri payload = (.error e, [])) ∧
    (∀ p cl e, provider_find payload.provider_id = .ok p →
      client_find payload.client_id = .ok cl →
      sanitize_scopes cl payload.scopes = .error e →
      login_start provider_find client_find sanitize_scopes encrypt save
        rand_callback_id rand_xsrf callback_uri payload = (.error e, [])) := by
  refine ⟨?_, ?_, ?_⟩
  · intro e he
    unfold login_start
    simp only [he]
  · intro p e hp he
    unfold login_start
    simp only [hp, he]
  · intro p cl e hp hcl he
    unfold login_start
    simp only [hp, hcl, he]

/-- C9 witness: an unknown provider at a concrete request leaves the
session store untouched. -/
theorem login_start_no_persist_on_validation_failure_witness :
    login_start (fun _ => .error ⟨.NotFound, "provider not found"⟩)
        (fun _ => .error ⟨.NotFound, "client not found"⟩)
        (fun _ _ => .ok []) (fun _ => []) (fun _ => .ok ())
        "rand1" "rand2" "https://idp.example/callback"
        { provider_id := "P9", client_id := "cl", scopes := none
          redirect_uri := "https://rp.example/cb", state := none, nonce := none
          code_challenge := none, code_challenge_method := none
          pkce_challenge := "pc" }
      = (.error ⟨.NotFound, "provider not found"⟩, []) :=
  (login_start_no_persist_on_validation_failure
      (fun _ => .error ⟨.NotFound, "provider not found"⟩)
      (fun _ => .error ⟨.NotFound, "client not found"⟩)
      (fun _ _ => .ok []) (fun _ => []) (fun _ => .ok ())
      "rand1" "rand2" "https://idp.example/callback"
      { provider_id := "P9", client_id := "cl", scopes := none
        redirect_uri := "https://rp.example/cb", state := none, nonce := none
        code_challenge := none, code_challenge_method := none
        pkce_challenge := "pc" }).1
    ⟨.NotFound, "provider not found"⟩ rfl

end Rauthy
